import Mathlib

/-!
Verification of the aircraft climb-performance calculator
(`aircraft_performance.py`): bilinear grid interpolation over fixed
IAS / rate-of-climb / fuel tables, the density-altitude model, the
temperature-corrected performance lookup, and the climb-segment planner.

The Python code is embedded over `ℚ`.  Python's `round(x, n)`
(round-half-to-even on the scaled value) is modelled exactly by `pyRound`.
A raised `ValueError` ("outside the data grid bounds") is modelled as
`none`; functions that return `None` in Python return `none` here.
The float `inf` sentinel for climb time is modelled by `⊤ : WithTop ℚ`.
-/

/-- Python's `round` to an integer: round half to even (banker's rounding). -/
def rhe (q : ℚ) : ℤ :=
  if q - ⌊q⌋ < 1/2 then ⌊q⌋
  else if 1/2 < q - ⌊q⌋ then ⌊q⌋ + 1
  else if ⌊q⌋ % 2 = 0 then ⌊q⌋ else ⌊q⌋ + 1

/-- Python's `round(q, n)` for `n ≥ 0` decimal digits. -/
def pyRound (q : ℚ) (n : ℕ) : ℚ :=
  (rhe (q * 10 ^ n) : ℚ) / 10 ^ n

/-- The altitude axis `ALTITUDES = [0, 5000, 10000, 15000]` (feet). -/
def ALTITUDES : List ℚ := [0, 5000, 10000, 15000]

/-- The weight axis `WEIGHTS = [1700, 2000, 2300]` (pounds). -/
def WEIGHTS : List ℚ := [1700, 2000, 2300]

/-- The table `IAS_DATA`: the indicated-airspeed table, `(altitude, weight) -> IAS` (mph).
The Python dict is only ever indexed at grid pairs; the nested conditionals
reproduce those entries. -/
def IAS_DATA (a w : ℚ) : ℚ :=
  if a = 0 then (if w = 1700 then 75 else if w = 2000 then 77 else 80)
  else if a = 5000 then (if w = 1700 then 73 else if w = 2000 then 76 else 78)
  else if a = 10000 then (if w = 1700 then 71 else if w = 2000 then 74 else 77)
  else (if w = 1700 then 70 else if w = 2000 then 73 else 76)

/-- The table `ROC_DATA`: the rate-of-climb table, `(altitude, weight) -> ROC` (fpm). -/
def ROC_DATA (a w : ℚ) : ℚ :=
  if a = 0 then (if w = 1700 then 1085 else if w = 2000 then 840 else 645)
  else if a = 5000 then (if w = 1700 then 825 else if w = 2000 then 610 else 435)
  else if a = 10000 then (if w = 1700 then 570 else if w = 2000 then 380 else 230)
  else (if w = 1700 then 315 else if w = 2000 then 155 else 22)

/-- The table `FUEL_DATA`: the fuel-to-altitude table, `(altitude, weight) -> gal`. -/
def FUEL_DATA (a w : ℚ) : ℚ :=
  if a = 0 then (if w = 1700 then 1 else if w = 2000 then 1 else 1)
  else if a = 5000 then (if w = 1700 then 1.9 else if w = 2000 then 2.2 else 2.6)
  else if a = 10000 then (if w = 1700 then 2.9 else if w = 2000 then 3.6 else 4.8)
  else (if w = 1700 then 4.4 else if w = 2000 then 6.3 else 11.5)

/-- Python's `max(list)` (the lists it is applied to are nonempty). -/
def listMax (l : List ℚ) : ℚ := l.foldl max l.headI

/-- Python's `min(list)`. -/
def listMin (l : List ℚ) : ℚ := l.foldl min l.headI

/-- The selector `x0 = max([gx for gx in grid_x if gx <= x])`: the largest grid value `≤ x`. -/
def x0sel (grid : List ℚ) (x : ℚ) : ℚ := listMax (grid.filter (fun g => g ≤ x))

/-- The selector `x1 = min([gx for gx in grid_x if gx >= x])`: the smallest grid value `≥ x`. -/
def x1sel (grid : List ℚ) (x : ℚ) : ℚ := listMin (grid.filter (fun g => x ≤ g))

/-- The offset `tx = 0 if x1 == x0 else (x - x0) / (x1 - x0)`: the normalized offset. -/
def txOf (grid : List ℚ) (x : ℚ) : ℚ :=
  if x1sel grid x = x0sel grid x then 0
  else (x - x0sel grid x) / (x1sel grid x - x0sel grid x)

/-- The method `_bilinear_interpolation(x, y, grid_x, grid_y, values)`.
The bounds check `grid_x[0] <= x <= grid_x[-1]` (and likewise for `y`)
failing corresponds to the raised `ValueError`, i.e. `none`. -/
def bilinearInterpolation (x y : ℚ) (gridX gridY : List ℚ)
    (values : ℚ → ℚ → ℚ) : Option ℚ :=
  if gridX.headI ≤ x ∧ x ≤ gridX.getLastD 0 ∧ gridY.headI ≤ y ∧ y ≤ gridY.getLastD 0 then
    if x0sel gridX x = x1sel gridX x ∧ x0sel gridY y = x1sel gridY y then
      some (values (x0sel gridX x) (x0sel gridY y))
    else
      some ((1 - txOf gridX x) * (1 - txOf gridY y) * values (x0sel gridX x) (x0sel gridY y)
          + txOf gridX x * (1 - txOf gridY y) * values (x1sel gridX x) (x0sel gridY y)
          + (1 - txOf gridX x) * txOf gridY y * values (x0sel gridX x) (x1sel gridY y)
          + txOf gridX x * txOf gridY y * values (x1sel gridX x) (x1sel gridY y))
  else none

/-- The method `get_performance_standard(altitude_ft, weight_lbs)`:
`(round(ias, 1), round(roc, 1), round(fuel, 2))`, or the propagated
`ValueError` (`none`). -/
def get_performance_standard (altitude_ft weight_lbs : ℚ) : Option (ℚ × ℚ × ℚ) :=
  match bilinearInterpolation altitude_ft weight_lbs ALTITUDES WEIGHTS IAS_DATA,
        bilinearInterpolation altitude_ft weight_lbs ALTITUDES WEIGHTS ROC_DATA,
        bilinearInterpolation altitude_ft weight_lbs ALTITUDES WEIGHTS FUEL_DATA with
  | some ias, some roc, some fuel => some (pyRound ias 1, pyRound roc 1, pyRound fuel 2)
  | _, _, _ => none

/-- The method `calculate_density_altitude(pressure_altitude_ft, temperature_c)`. -/
def calculate_density_altitude (pressure_altitude_ft temperature_c : ℚ) : ℚ :=
  let isa_temp_c := 15 - 2 * pressure_altitude_ft / 1000
  pressure_altitude_ft + 120 * (temperature_c - isa_temp_c)

/-- The `PerformanceData` dataclass. -/
structure PerformanceData where
  ias_mph : ℚ
  roc_fpm : ℚ
  fuel_gal : ℚ
  pressure_altitude_ft : ℚ
  density_altitude_ft : ℚ
  temperature_c : ℚ
  isa_temp_c : ℚ
  isa_deviation_c : ℚ
  performance_factor : ℚ
  roc_loss_fpm : ℚ
deriving DecidableEq

/-- The `ClimbSegment` dataclass; `climb_time_min = ⊤` models `float('inf')`. -/
structure ClimbSegment where
  start_altitude_ft : ℚ
  end_altitude_ft : ℚ
  altitude_gain_ft : ℚ
  avg_roc_fpm : ℚ
  segment_fuel_gal : ℚ
  climb_time_min : WithTop ℚ
  start_ias_mph : ℚ
  end_ias_mph : ℚ
  start_density_alt_ft : ℚ
  end_density_alt_ft : ℚ
  temperature_c : ℚ
deriving DecidableEq

/-- The method `get_performance_with_temperature(pressure_altitude_ft, weight_lbs, temperature_c)`.
The `try/except ValueError: return None` around the two standard lookups is
the fall-through `| _, _ => none` arm. -/
def get_performance_with_temperature (pressure_altitude_ft weight_lbs temperature_c : ℚ) :
    Option PerformanceData :=
  let density_alt := calculate_density_altitude pressure_altitude_ft temperature_c
  let isa_temp := 15 - 2 * pressure_altitude_ft / 1000
  let isa_deviation := temperature_c - isa_temp
  if ¬(listMin ALTITUDES ≤ density_alt ∧ density_alt ≤ listMax ALTITUDES) then none
  else if ¬(listMin WEIGHTS ≤ weight_lbs ∧ weight_lbs ≤ listMax WEIGHTS) then none
  else
    match get_performance_standard density_alt weight_lbs,
          get_performance_standard pressure_altitude_ft weight_lbs with
    | some (ias, roc, fuel), some (_, std_roc, _) =>
        some { ias_mph := ias
               roc_fpm := roc
               fuel_gal := fuel
               pressure_altitude_ft := pressure_altitude_ft
               density_altitude_ft := pyRound density_alt 0
               temperature_c := temperature_c
               isa_temp_c := pyRound isa_temp 1
               isa_deviation_c := pyRound isa_deviation 1
               performance_factor := pyRound (if 0 < std_roc then roc / std_roc else 0) 3
               roc_loss_fpm := pyRound (std_roc - roc) 1 }
    | _, _ => none

/-- The method `get_climb_segment_performance(start_altitude_ft, end_altitude_ft, weight_lbs,
start_temperature_c)`. -/
def get_climb_segment_performance (start_altitude_ft end_altitude_ft weight_lbs
    start_temperature_c : ℚ) : Option ClimbSegment :=
  if end_altitude_ft ≤ start_altitude_ft then none
  else
    let altitude_diff_1000ft := (end_altitude_ft - start_altitude_ft) / 1000
    let end_temperature_c := start_temperature_c - 2 * altitude_diff_1000ft
    match get_performance_with_temperature start_altitude_ft weight_lbs start_temperature_c,
          get_performance_with_temperature end_altitude_ft weight_lbs end_temperature_c with
    | some start_perf, some end_perf =>
        let altitude_gain := end_altitude_ft - start_altitude_ft
        let avg_roc := (start_perf.roc_fpm + end_perf.roc_fpm) / 2
        let segment_fuel := end_perf.fuel_gal - start_perf.fuel_gal
        let climb_time_min : WithTop ℚ :=
          if 0 < avg_roc then ((pyRound (altitude_gain / avg_roc) 1 : ℚ) : WithTop ℚ) else ⊤
        some { start_altitude_ft := start_altitude_ft
               end_altitude_ft := end_altitude_ft
               altitude_gain_ft := altitude_gain
               avg_roc_fpm := pyRound avg_roc 1
               segment_fuel_gal := pyRound segment_fuel 2
               climb_time_min := climb_time_min
               start_ias_mph := start_perf.ias_mph
               end_ias_mph := end_perf.ias_mph
               start_density_alt_ft := start_perf.density_altitude_ft
               end_density_alt_ft := end_perf.density_altitude_ft
               temperature_c := start_temperature_c }
    | _, _ => none

/-! ### Rounding lemmas -/

lemma rhe_ge_floor (q : ℚ) : ⌊q⌋ ≤ rhe q := by
  unfold rhe; split_ifs <;> omega

lemma rhe_le_floor_add_one (q : ℚ) : rhe q ≤ ⌊q⌋ + 1 := by
  unfold rhe; split_ifs <;> omega

lemma rhe_mono {a b : ℚ} (h : a ≤ b) : rhe a ≤ rhe b := by
  rcases lt_or_eq_of_le (Int.floor_mono h) with hf | hf
  · calc rhe a ≤ ⌊a⌋ + 1 := rhe_le_floor_add_one a
    _ ≤ ⌊b⌋ := by omega
    _ ≤ rhe b := rhe_ge_floor b
  · have hfQ : ((⌊a⌋ : ℚ)) = ((⌊b⌋ : ℚ)) := by exact_mod_cast hf
    unfold rhe
    split_ifs <;> try omega
    all_goals (exfalso; linarith)

lemma abs_rhe_sub (q : ℚ) : |(rhe q : ℚ) - q| ≤ 1/2 := by
  have h1 := Int.floor_le q
  have h2 := Int.lt_floor_add_one q
  unfold rhe
  split_ifs <;> rw [abs_le] <;> constructor <;> push_cast <;> linarith

lemma rhe_intCast (n : ℤ) : rhe (n : ℚ) = n := by
  unfold rhe
  rw [Int.floor_intCast]
  simp

lemma pyRound_mono {a b : ℚ} (n : ℕ) (h : a ≤ b) : pyRound a n ≤ pyRound b n := by
  unfold pyRound
  have hp : (0:ℚ) < 10 ^ n := by positivity
  apply div_le_div_of_nonneg_right ?_ (le_of_lt hp)
  exact_mod_cast rhe_mono (mul_le_mul_of_nonneg_right h (le_of_lt hp))

lemma abs_pyRound_sub (q : ℚ) (n : ℕ) : |pyRound q n - q| ≤ 1 / (2 * 10 ^ n) := by
  have hp : (0:ℚ) < 10 ^ n := by positivity
  have h := abs_rhe_sub (q * 10 ^ n)
  unfold pyRound
  have he : (rhe (q * 10 ^ n) : ℚ) / 10 ^ n - q = ((rhe (q * 10 ^ n) : ℚ) - q * 10 ^ n) / 10 ^ n := by
    field_simp
    ring
  rw [he, abs_div, abs_of_pos hp, div_le_div_iff₀ hp (by positivity)]
  calc |(rhe (q * 10 ^ n) : ℚ) - q * 10 ^ n| * (2 * 10 ^ n)
      ≤ (1/2) * (2 * 10 ^ n) := by
        apply mul_le_mul_of_nonneg_right h (by positivity)
    _ = 1 * 10 ^ n := by ring

/-! ### List max/min and bracketing-selector lemmas -/

lemma le_foldl_max (t : List ℚ) (a : ℚ) : a ≤ t.foldl max a := by
  induction t generalizing a with
  | nil => simp
  | cons b t ih =>
      simp only [List.foldl_cons]
      exact le_trans (le_max_left a b) (ih (max a b))

lemma le_foldl_max_of_mem {t : List ℚ} {b : ℚ} (hb : b ∈ t) (a : ℚ) :
    b ≤ t.foldl max a := by
  induction t generalizing a with
  | nil => cases hb
  | cons c t ih =>
      rcases List.mem_cons.mp hb with h | h
      · subst h
        exact le_trans (le_max_right a b) (le_foldl_max t (max a b))
      · exact ih h (max a c)

lemma foldl_max_mem (t : List ℚ) (a : ℚ) : t.foldl max a ∈ a :: t := by
  induction t generalizing a with
  | nil => simp
  | cons b t ih =>
      simp only [List.foldl_cons]
      rcases List.mem_cons.mp (ih (max a b)) with h | h
      · rw [h]
        rcases max_choice a b with hm | hm <;> rw [hm] <;> simp
      · simp [h]

lemma foldl_min_le (t : List ℚ) (a : ℚ) : t.foldl min a ≤ a := by
  induction t generalizing a with
  | nil => simp
  | cons b t ih =>
      simp only [List.foldl_cons]
      exact le_trans (ih (min a b)) (min_le_left a b)

lemma foldl_min_le_of_mem {t : List ℚ} {b : ℚ} (hb : b ∈ t) (a : ℚ) :
    t.foldl min a ≤ b := by
  induction t generalizing a with
  | nil => cases hb
  | cons c t ih =>
      rcases List.mem_cons.mp hb with h | h
      · subst h
        exact le_trans (foldl_min_le t (min a b)) (min_le_right a b)
      · exact ih h (min a c)

lemma foldl_min_mem (t : List ℚ) (a : ℚ) : t.foldl min a ∈ a :: t := by
  induction t generalizing a with
  | nil => simp
  | cons b t ih =>
      simp only [List.foldl_cons]
      rcases List.mem_cons.mp (ih (min a b)) with h | h
      · rw [h]
        rcases min_choice a b with hm | hm <;> rw [hm] <;> simp
      · simp [h]

lemma listMax_mem {l : List ℚ} (hl : l ≠ []) : listMax l ∈ l := by
  cases l with
  | nil => exact absurd rfl hl
  | cons a t =>
      unfold listMax
      simpa using foldl_max_mem (a :: t) (a :: t).headI

lemma le_listMax {l : List ℚ} {b : ℚ} (hb : b ∈ l) : b ≤ listMax l := by
  unfold listMax
  exact le_foldl_max_of_mem hb l.headI

lemma listMin_mem {l : List ℚ} (hl : l ≠ []) : listMin l ∈ l := by
  cases l with
  | nil => exact absurd rfl hl
  | cons a t =>
      unfold listMin
      simpa using foldl_min_mem (a :: t) (a :: t).headI

lemma listMin_le {l : List ℚ} {b : ℚ} (hb : b ∈ l) : listMin l ≤ b := by
  unfold listMin
  exact foldl_min_le_of_mem hb l.headI

lemma headI_mem {l : List ℚ} (hl : l ≠ []) : l.headI ∈ l := by
  cases l with
  | nil => exact absurd rfl hl
  | cons a t => simp

lemma getLastD_mem {l : List ℚ} (hl : l ≠ []) (d : ℚ) : l.getLastD d ∈ l := by
  induction l generalizing d with
  | nil => exact absurd rfl hl
  | cons a t ih =>
      rw [List.getLastD_cons]
      cases t with
      | nil => simp
      | cons b t' => exact List.mem_cons_of_mem a (ih (by simp) a)

lemma x0sel_spec {g : List ℚ} {x : ℚ} (hg : g ≠ []) (hb : g.headI ≤ x) :
    x0sel g x ∈ g ∧ x0sel g x ≤ x ∧ ∀ e ∈ g, e ≤ x → e ≤ x0sel g x := by
  have hne : g.filter (fun e => e ≤ x) ≠ [] :=
    List.ne_nil_of_mem (List.mem_filter.mpr ⟨headI_mem hg, by simpa using hb⟩)
  have hmem := listMax_mem hne
  rw [List.mem_filter] at hmem
  refine ⟨hmem.1, by simpa using hmem.2, ?_⟩
  intro e he hex
  exact le_listMax (List.mem_filter.mpr ⟨he, by simpa using hex⟩)

lemma x1sel_spec {g : List ℚ} {x : ℚ} (hg : g ≠ []) (hb : x ≤ g.getLastD 0) :
    x1sel g x ∈ g ∧ x ≤ x1sel g x ∧ ∀ e ∈ g, x ≤ e → x1sel g x ≤ e := by
  have hne : g.filter (fun e => x ≤ e) ≠ [] :=
    List.ne_nil_of_mem (List.mem_filter.mpr ⟨getLastD_mem hg 0, by simpa using hb⟩)
  have hmem := listMin_mem hne
  rw [List.mem_filter] at hmem
  refine ⟨hmem.1, by simpa using hmem.2, ?_⟩
  intro e he hex
  exact listMin_le (List.mem_filter.mpr ⟨he, by simpa using hex⟩)

lemma x0sel_eq {g : List ℚ} {x b : ℚ} (hmem : b ∈ g) (hle : b ≤ x)
    (hmax : ∀ e ∈ g, e ≤ x → e ≤ b) : x0sel g x = b := by
  have hbf : b ∈ g.filter (fun e => e ≤ x) := List.mem_filter.mpr ⟨hmem, by simpa using hle⟩
  have hne : g.filter (fun e => e ≤ x) ≠ [] := List.ne_nil_of_mem hbf
  have hmax' := listMax_mem hne
  rw [List.mem_filter] at hmax'
  exact le_antisymm (hmax _ hmax'.1 (by simpa using hmax'.2)) (le_listMax hbf)

lemma x1sel_eq {g : List ℚ} {x b : ℚ} (hmem : b ∈ g) (hle : x ≤ b)
    (hmin : ∀ e ∈ g, x ≤ e → b ≤ e) : x1sel g x = b := by
  have hbf : b ∈ g.filter (fun e => x ≤ e) := List.mem_filter.mpr ⟨hmem, by simpa using hle⟩
  have hne : g.filter (fun e => x ≤ e) ≠ [] := List.ne_nil_of_mem hbf
  have hmin' := listMin_mem hne
  rw [List.mem_filter] at hmin'
  exact le_antisymm (listMin_le hbf) (hmin _ hmin'.1 (by simpa using hmin'.2))

lemma txOf_bounds {g : List ℚ} {x : ℚ} (hg : g ≠ []) (hb0 : g.headI ≤ x)
    (hb1 : x ≤ g.getLastD 0) : 0 ≤ txOf g x ∧ txOf g x ≤ 1 := by
  obtain ⟨_, h0le, _⟩ := x0sel_spec hg hb0
  obtain ⟨_, hle1, _⟩ := x1sel_spec hg hb1
  unfold txOf
  split_ifs with h
  · norm_num
  · have hlt : x0sel g x < x1sel g x :=
      lt_of_le_of_ne (le_trans h0le hle1) (fun hc => h hc.symm)
    constructor
    · apply div_nonneg (by linarith) (by linarith)
    · rw [div_le_one (by linarith)]
      linarith

/-- For `a ≤ a'` both inside the grid span, either the two queries fall in the
same bracketing cell, or the cell of `a` ends no later than the cell of `a'` begins. -/
lemma sel_dichotomy {g : List ℚ} {a a' : ℚ} (hg : g ≠ []) (hba : g.headI ≤ a)
    (hba' : a' ≤ g.getLastD 0) (haa : a ≤ a') :
    (x0sel g a = x0sel g a' ∧ x1sel g a = x1sel g a') ∨ x1sel g a ≤ x0sel g a' := by
  by_cases hc : x1sel g a ≤ x0sel g a'
  · exact Or.inr hc
  left
  push_neg at hc
  obtain ⟨h0m', h0le', h0max'⟩ := x0sel_spec hg (le_trans hba haa)
  obtain ⟨h1m, h1ge, h1min⟩ := x1sel_spec hg (le_trans haa hba')
  obtain ⟨h0m, h0le, h0max⟩ := x0sel_spec hg hba
  obtain ⟨h1m', h1ge', h1min'⟩ := x1sel_spec hg hba'
  have hlt : a' < x1sel g a := by
    by_contra hle
    push_neg at hle
    exact absurd (h0max' _ h1m hle) (not_le.mpr hc)
  have hx1 : x1sel g a = x1sel g a' :=
    le_antisymm (h1min _ h1m' (le_trans haa h1ge')) (h1min' _ h1m (le_of_lt hlt))
  have h0a : x0sel g a' ≤ a := by
    by_contra hgt
    push_neg at hgt
    exact absurd (h1min _ h0m' (le_of_lt hgt)) (not_le.mpr hc)
  have hx0 : x0sel g a = x0sel g a' :=
    le_antisymm (h0max' _ h0m (le_trans h0le haa)) (h0max _ h0m' h0a)
  exact ⟨hx0, hx1⟩

/-! ### Bilinear-interpolation structure lemmas -/

lemma bilin_formula {x y : ℚ} {gX gY : List ℚ} {v : ℚ → ℚ → ℚ}
    (hb : gX.headI ≤ x ∧ x ≤ gX.getLastD 0 ∧ gY.headI ≤ y ∧ y ≤ gY.getLastD 0) :
    bilinearInterpolation x y gX gY v =
      some ((1 - txOf gX x) * ((1 - txOf gY y) * v (x0sel gX x) (x0sel gY y)
                              + txOf gY y * v (x0sel gX x) (x1sel gY y))
          + txOf gX x * ((1 - txOf gY y) * v (x1sel gX x) (x0sel gY y)
                         + txOf gY y * v (x1sel gX x) (x1sel gY y))) := by
  unfold bilinearInterpolation
  rw [if_pos hb]
  split_ifs with hex
  · obtain ⟨hx, hy⟩ := hex
    have htx : txOf gX x = 0 := by unfold txOf; rw [if_pos hx.symm]
    have hty : txOf gY y = 0 := by unfold txOf; rw [if_pos hy.symm]
    rw [htx, hty, ← hx, ← hy]
    norm_num
  · congr 1
    ring

lemma bilin_none {x y : ℚ} {gX gY : List ℚ} {v : ℚ → ℚ → ℚ}
    (hb : ¬(gX.headI ≤ x ∧ x ≤ gX.getLastD 0 ∧ gY.headI ≤ y ∧ y ≤ gY.getLastD 0)) :
    bilinearInterpolation x y gX gY v = none := by
  unfold bilinearInterpolation
  rw [if_neg hb]

lemma bilin_none_iff {x y : ℚ} {gX gY : List ℚ} {v : ℚ → ℚ → ℚ} :
    bilinearInterpolation x y gX gY v = none ↔
      ¬(gX.headI ≤ x ∧ x ≤ gX.getLastD 0 ∧ gY.headI ≤ y ∧ y ≤ gY.getLastD 0) := by
  constructor
  · intro h hb
    rw [bilin_formula hb] at h
    cases h
  · exact bilin_none

lemma lin_bound {t a b : ℚ} (h0 : 0 ≤ t) (h1 : t ≤ 1) :
    min a b ≤ (1 - t) * a + t * b ∧ (1 - t) * a + t * b ≤ max a b := by
  rcases le_total a b with hab | hab
  · rw [min_eq_left hab, max_eq_right hab]
    constructor <;> nlinarith
  · rw [min_eq_right hab, max_eq_left hab]
    constructor <;> nlinarith

/-- Under the bounds check, the interpolated value lies between the min and the
max of the four corner table values. -/
lemma bilin_bounds {x y : ℚ} {gX gY : List ℚ} {v : ℚ → ℚ → ℚ} {r : ℚ}
    (hgx : gX ≠ []) (hgy : gY ≠ [])
    (hb : gX.headI ≤ x ∧ x ≤ gX.getLastD 0 ∧ gY.headI ≤ y ∧ y ≤ gY.getLastD 0)
    (hr : bilinearInterpolation x y gX gY v = some r) :
    min (min (v (x0sel gX x) (x0sel gY y)) (v (x1sel gX x) (x0sel gY y)))
        (min (v (x0sel gX x) (x1sel gY y)) (v (x1sel gX x) (x1sel gY y))) ≤ r ∧
    r ≤ max (max (v (x0sel gX x) (x0sel gY y)) (v (x1sel gX x) (x0sel gY y)))
            (max (v (x0sel gX x) (x1sel gY y)) (v (x1sel gX x) (x1sel gY y))) := by
  obtain ⟨hbx0, hbx1, hby0, hby1⟩ := hb
  obtain ⟨htx0, htx1⟩ := txOf_bounds hgx hbx0 hbx1
  obtain ⟨hty0, hty1⟩ := txOf_bounds hgy hby0 hby1
  rw [bilin_formula ⟨hbx0, hbx1, hby0, hby1⟩] at hr
  have hre := Option.some.inj hr
  set v00 := v (x0sel gX x) (x0sel gY y) with hv00
  set v10 := v (x1sel gX x) (x0sel gY y) with hv10
  set v01 := v (x0sel gX x) (x1sel gY y) with hv01
  set v11 := v (x1sel gX x) (x1sel gY y) with hv11
  have hA := lin_bound hty0 hty1 (a := v00) (b := v01)
  have hB := lin_bound hty0 hty1 (a := v10) (b := v11)
  have hO := lin_bound htx0 htx1
    (a := (1 - txOf gY y) * v00 + txOf gY y * v01)
    (b := (1 - txOf gY y) * v10 + txOf gY y * v11)
  constructor
  · have h1 : min (min v00 v10) (min v01 v11) ≤ min v00 v01 := by
      apply le_min
      · exact le_trans (min_le_left _ _) (min_le_left _ _)
      · exact le_trans (min_le_right _ _) (min_le_left _ _)
    have h2 : min (min v00 v10) (min v01 v11) ≤ min v10 v11 := by
      apply le_min
      · exact le_trans (min_le_left _ _) (min_le_right _ _)
      · exact le_trans (min_le_right _ _) (min_le_right _ _)
    have h3 := le_min (le_trans h1 hA.1) (le_trans h2 hB.1)
    rw [← hre]
    exact le_trans h3 hO.1
  · have h1 : max v00 v01 ≤ max (max v00 v10) (max v01 v11) := by
      apply max_le
      · exact le_trans (le_max_left _ _) (le_max_left _ _)
      · exact le_trans (le_max_left _ _) (le_max_right _ _)
    have h2 : max v10 v11 ≤ max (max v00 v10) (max v01 v11) := by
      apply max_le
      · exact le_trans (le_max_right _ _) (le_max_left _ _)
      · exact le_trans (le_max_right _ _) (le_max_right _ _)
    have h3 := max_le (le_trans hA.2 h1) (le_trans hB.2 h2)
    rw [← hre]
    exact le_trans hO.2 h3

/-! ### Facts about the concrete grids and tables -/

lemma ALTITUDES_ne : ALTITUDES ≠ [] := by decide

lemma WEIGHTS_ne : WEIGHTS ≠ [] := by decide

lemma ALTITUDES_headI : ALTITUDES.headI = 0 := rfl

lemma ALTITUDES_last : ALTITUDES.getLastD 0 = 15000 := rfl

lemma WEIGHTS_headI : WEIGHTS.headI = 1700 := rfl

lemma WEIGHTS_last : WEIGHTS.getLastD 0 = 2300 := rfl

lemma listMin_ALTITUDES : listMin ALTITUDES = 0 := by decide

lemma listMax_ALTITUDES : listMax ALTITUDES = 15000 := by decide

lemma listMin_WEIGHTS : listMin WEIGHTS = 1700 := by decide

lemma listMax_WEIGHTS : listMax WEIGHTS = 2300 := by decide

/-- Every ROC table entry is at least 22 fpm. -/
lemma ROC_entries_ge : ∀ a ∈ ALTITUDES, ∀ w ∈ WEIGHTS, (22:ℚ) ≤ ROC_DATA a w := by
  decide

/-- In each weight column, ROC decreases (weakly) as grid altitude increases. -/
lemma ROC_col_antitone : ∀ a₁ ∈ ALTITUDES, ∀ a₂ ∈ ALTITUDES, ∀ w ∈ WEIGHTS,
    a₁ ≤ a₂ → ROC_DATA a₂ w ≤ ROC_DATA a₁ w := by
  decide

/-! ### Standard-performance lemmas -/

lemma gps_none_iff {a w : ℚ} :
    get_performance_standard a w = none ↔ ¬(0 ≤ a ∧ a ≤ 15000 ∧ 1700 ≤ w ∧ w ≤ 2300) := by
  unfold get_performance_standard
  constructor
  · intro h hb
    have hb' : ALTITUDES.headI ≤ a ∧ a ≤ ALTITUDES.getLastD 0 ∧
        WEIGHTS.headI ≤ w ∧ w ≤ WEIGHTS.getLastD 0 := by
      rw [ALTITUDES_headI, ALTITUDES_last, WEIGHTS_headI, WEIGHTS_last]
      exact hb
    rw [bilin_formula hb', bilin_formula hb', bilin_formula hb'] at h
    cases h
  · intro hb
    have hb' : ¬(ALTITUDES.headI ≤ a ∧ a ≤ ALTITUDES.getLastD 0 ∧
        WEIGHTS.headI ≤ w ∧ w ≤ WEIGHTS.getLastD 0) := by
      rw [ALTITUDES_headI, ALTITUDES_last, WEIGHTS_headI, WEIGHTS_last]
      exact hb
    rw [bilin_none hb']

lemma gps_inv {a w : ℚ} {i r f : ℚ}
    (h : get_performance_standard a w = some (i, r, f)) :
    ∃ ri rr rf,
      bilinearInterpolation a w ALTITUDES WEIGHTS IAS_DATA = some ri ∧
      bilinearInterpolation a w ALTITUDES WEIGHTS ROC_DATA = some rr ∧
      bilinearInterpolation a w ALTITUDES WEIGHTS FUEL_DATA = some rf ∧
      i = pyRound ri 1 ∧ r = pyRound rr 1 ∧ f = pyRound rf 2 := by
  unfold get_performance_standard at h
  rcases hI : bilinearInterpolation a w ALTITUDES WEIGHTS IAS_DATA with _ | ri <;>
    rw [hI] at h
  · cases h
  rcases hR : bilinearInterpolation a w ALTITUDES WEIGHTS ROC_DATA with _ | rr <;>
    rw [hR] at h
  · cases h
  rcases hF : bilinearInterpolation a w ALTITUDES WEIGHTS FUEL_DATA with _ | rf <;>
    rw [hF] at h
  · cases h
  simp only [Option.some.injEq, Prod.mk.injEq] at h
  exact ⟨ri, rr, rf, rfl, rfl, rfl, h.1.symm, h.2.1.symm, h.2.2.symm⟩

lemma gps_some {a w : ℚ} (hb : 0 ≤ a ∧ a ≤ 15000 ∧ 1700 ≤ w ∧ w ≤ 2300) :
    ∃ i r f, get_performance_standard a w = some (i, r, f) := by
  rcases h : get_performance_standard a w with _ | v
  · exact absurd (gps_none_iff.mp h) (not_not.mpr hb)
  · exact ⟨v.1, v.2.1, v.2.2, rfl⟩

/-- The raw interpolated ROC at any in-bounds point is at least 22 fpm. -/
lemma roc_raw_ge {a w rr : ℚ} (hb : 0 ≤ a ∧ a ≤ 15000 ∧ 1700 ≤ w ∧ w ≤ 2300)
    (h : bilinearInterpolation a w ALTITUDES WEIGHTS ROC_DATA = some rr) :
    (22:ℚ) ≤ rr := by
  obtain ⟨ha0, ha1, hw0, hw1⟩ := hb
  have hb' : ALTITUDES.headI ≤ a ∧ a ≤ ALTITUDES.getLastD 0 ∧
      WEIGHTS.headI ≤ w ∧ w ≤ WEIGHTS.getLastD 0 := by
    rw [ALTITUDES_headI, ALTITUDES_last, WEIGHTS_headI, WEIGHTS_last]
    exact ⟨ha0, ha1, hw0, hw1⟩
  have hbnd := bilin_bounds ALTITUDES_ne WEIGHTS_ne hb' h
  obtain ⟨hx0m, _, _⟩ := x0sel_spec ALTITUDES_ne hb'.1
  obtain ⟨hx1m, _, _⟩ := x1sel_spec ALTITUDES_ne hb'.2.1
  obtain ⟨hy0m, _, _⟩ := x0sel_spec WEIGHTS_ne hb'.2.2.1
  obtain ⟨hy1m, _, _⟩ := x1sel_spec WEIGHTS_ne hb'.2.2.2
  have h00 := ROC_entries_ge _ hx0m _ hy0m
  have h10 := ROC_entries_ge _ hx1m _ hy0m
  have h01 := ROC_entries_ge _ hx0m _ hy1m
  have h11 := ROC_entries_ge _ hx1m _ hy1m
  have := hbnd.1
  have hmin : (22:ℚ) ≤ min (min (ROC_DATA (x0sel ALTITUDES a) (x0sel WEIGHTS w))
      (ROC_DATA (x1sel ALTITUDES a) (x0sel WEIGHTS w)))
      (min (ROC_DATA (x0sel ALTITUDES a) (x1sel WEIGHTS w))
      (ROC_DATA (x1sel ALTITUDES a) (x1sel WEIGHTS w))) :=
    le_min (le_min h00 h10) (le_min h01 h11)
  linarith

/-- Linear interpolation between a larger value `A0` and a smaller value `A1`
is antitone in the offset. -/
lemma interp_cell_le {t t' A0 A1 r r' : ℚ} (h1 : A1 ≤ A0) (ht : t ≤ t')
    (hre : r = (1 - t) * A0 + t * A1) (hre' : r' = (1 - t') * A0 + t' * A1) :
    r' ≤ r := by nlinarith

/-- A convex combination of `A0` and `A1 ≤ A0` lies between them. -/
lemma interp_between {t A0 A1 r : ℚ} (h1 : A1 ≤ A0) (h0 : 0 ≤ t) (h2 : t ≤ 1)
    (hre : r = (1 - t) * A0 + t * A1) : A1 ≤ r ∧ r ≤ A0 := by
  constructor <;> nlinarith

/-- The raw interpolated ROC is weakly decreasing in altitude (the ROC table
decreases along each weight column, and bilinear interpolation is piecewise
linear in the altitude coordinate). -/
lemma roc_raw_antitone {a a' w r r' : ℚ}
    (ha0 : 0 ≤ a) (haa : a ≤ a') (ha1 : a' ≤ 15000) (hw0 : 1700 ≤ w) (hw1 : w ≤ 2300)
    (hr : bilinearInterpolation a w ALTITUDES WEIGHTS ROC_DATA = some r)
    (hr' : bilinearInterpolation a' w ALTITUDES WEIGHTS ROC_DATA = some r') :
    r' ≤ r := by
  have hba : ALTITUDES.headI ≤ a ∧ a ≤ ALTITUDES.getLastD 0 ∧
      WEIGHTS.headI ≤ w ∧ w ≤ WEIGHTS.getLastD 0 := by
    rw [ALTITUDES_headI, ALTITUDES_last, WEIGHTS_headI, WEIGHTS_last]
    exact ⟨ha0, le_trans haa ha1, hw0, hw1⟩
  have hbb : ALTITUDES.headI ≤ a' ∧ a' ≤ ALTITUDES.getLastD 0 ∧
      WEIGHTS.headI ≤ w ∧ w ≤ WEIGHTS.getLastD 0 := by
    rw [ALTITUDES_headI, ALTITUDES_last, WEIGHTS_headI, WEIGHTS_last]
    exact ⟨le_trans ha0 haa, ha1, hw0, hw1⟩
  rw [bilin_formula hba] at hr
  rw [bilin_formula hbb] at hr'
  have hre := (Option.some.inj hr).symm
  have hre' := (Option.some.inj hr').symm
  obtain ⟨hy0m, hy0le, _⟩ := x0sel_spec WEIGHTS_ne hba.2.2.1
  obtain ⟨hy1m, hy1ge, _⟩ := x1sel_spec WEIGHTS_ne hba.2.2.2
  obtain ⟨hty0, hty1⟩ := txOf_bounds WEIGHTS_ne hba.2.2.1 hba.2.2.2
  obtain ⟨hx0am, hx0ale, hx0amax⟩ := x0sel_spec ALTITUDES_ne hba.1
  obtain ⟨hx1am, hx1age, hx1amin⟩ := x1sel_spec ALTITUDES_ne hba.2.1
  obtain ⟨hx0bm, hx0ble, hx0bmax⟩ := x0sel_spec ALTITUDES_ne hbb.1
  obtain ⟨hx1bm, hx1bge, hx1bmin⟩ := x1sel_spec ALTITUDES_ne hbb.2.1
  obtain ⟨hta0, hta1⟩ := txOf_bounds ALTITUDES_ne hba.1 hba.2.1
  obtain ⟨htb0, htb1⟩ := txOf_bounds ALTITUDES_ne hbb.1 hbb.2.1
  have hdi := sel_dichotomy ALTITUDES_ne hba.1 hbb.2.1 haa
  have hP : ∀ g₁ ∈ ALTITUDES, ∀ g₂ ∈ ALTITUDES, g₁ ≤ g₂ →
      (1 - txOf WEIGHTS w) * ROC_DATA g₂ (x0sel WEIGHTS w)
        + txOf WEIGHTS w * ROC_DATA g₂ (x1sel WEIGHTS w) ≤
      (1 - txOf WEIGHTS w) * ROC_DATA g₁ (x0sel WEIGHTS w)
        + txOf WEIGHTS w * ROC_DATA g₁ (x1sel WEIGHTS w) := by
    intro g₁ hg₁ g₂ hg₂ hg
    have hc0 := ROC_col_antitone g₁ hg₁ g₂ hg₂ (x0sel WEIGHTS w) hy0m hg
    have hc1 := ROC_col_antitone g₁ hg₁ g₂ hg₂ (x1sel WEIGHTS w) hy1m hg
    nlinarith
  rcases hdi with ⟨he0, he1⟩ | hc
  · -- same bracketing cell: linear in the altitude offset
    rw [← he0, ← he1] at hre'
    have hPle := hP (x0sel ALTITUDES a) hx0am (x1sel ALTITUDES a) hx1am
      (le_trans hx0ale hx1age)
    have htab : txOf ALTITUDES a ≤ txOf ALTITUDES a' := by
      unfold txOf
      rw [← he0, ← he1]
      split_ifs with hx
      · exact le_refl 0
      · have hx0x1 : x0sel ALTITUDES a < x1sel ALTITUDES a :=
          lt_of_le_of_ne (le_trans hx0ale hx1age) (fun hcc => hx hcc.symm)
        exact div_le_div_of_nonneg_right (by linarith) (by linarith)
    exact interp_cell_le hPle htab hre hre'
  · -- the cell of `a` ends no later than the cell of `a'` begins
    have hPlea := hP (x0sel ALTITUDES a) hx0am (x1sel ALTITUDES a) hx1am
      (le_trans hx0ale hx1age)
    have hPleb := hP (x0sel ALTITUDES a') hx0bm (x1sel ALTITUDES a') hx1bm
      (le_trans hx0ble hx1bge)
    have hPa := (interp_between hPlea hta0 hta1 hre).1
    have hPb := (interp_between hPleb htb0 htb1 hre').2
    have hmid := hP (x1sel ALTITUDES a) hx1am (x0sel ALTITUDES a') hx0bm hc
    linarith

/-! ### Temperature-corrected lookup: inversion and construction lemmas -/

lemma gpwt_inv {p w t : ℚ} {s : PerformanceData}
    (h : get_performance_with_temperature p w t = some s) :
    ∃ ias roc fuel sias sroc sfuel,
      get_performance_standard (calculate_density_altitude p t) w = some (ias, roc, fuel) ∧
      get_performance_standard p w = some (sias, sroc, sfuel) ∧
      (0 ≤ calculate_density_altitude p t ∧ calculate_density_altitude p t ≤ 15000) ∧
      (1700 ≤ w ∧ w ≤ 2300) ∧
      s = { ias_mph := ias
            roc_fpm := roc
            fuel_gal := fuel
            pressure_altitude_ft := p
            density_altitude_ft := pyRound (calculate_density_altitude p t) 0
            temperature_c := t
            isa_temp_c := pyRound (15 - 2 * p / 1000) 1
            isa_deviation_c := pyRound (t - (15 - 2 * p / 1000)) 1
            performance_factor := pyRound (if 0 < sroc then roc / sroc else 0) 3
            roc_loss_fpm := pyRound (sroc - roc) 1 } := by
  simp only [get_performance_with_temperature, listMin_ALTITUDES, listMax_ALTITUDES,
    listMin_WEIGHTS, listMax_WEIGHTS] at h
  split_ifs at h with h1 h2
  rcases hg1 : get_performance_standard (calculate_density_altitude p t) w
    with _ | ⟨ias, roc, fuel⟩ <;>
    rcases hg2 : get_performance_standard p w with _ | ⟨sias, sroc, sfuel⟩ <;>
    rw [hg1, hg2] at h
  · cases h
  · cases h
  · cases h
  exact ⟨ias, roc, fuel, sias, sroc, sfuel, rfl, rfl, h1, h2, (Option.some.inj h).symm⟩

lemma gpwt_eq {p w t : ℚ} {ias roc fuel sias sroc sfuel : ℚ}
    (hd : 0 ≤ calculate_density_altitude p t ∧ calculate_density_altitude p t ≤ 15000)
    (hw : 1700 ≤ w ∧ w ≤ 2300)
    (h1 : get_performance_standard (calculate_density_altitude p t) w = some (ias, roc, fuel))
    (h2 : get_performance_standard p w = some (sias, sroc, sfuel)) :
    get_performance_with_temperature p w t =
      some { ias_mph := ias
             roc_fpm := roc
             fuel_gal := fuel
             pressure_altitude_ft := p
             density_altitude_ft := pyRound (calculate_density_altitude p t) 0
             temperature_c := t
             isa_temp_c := pyRound (15 - 2 * p / 1000) 1
             isa_deviation_c := pyRound (t - (15 - 2 * p / 1000)) 1
             performance_factor := pyRound (if 0 < sroc then roc / sroc else 0) 3
             roc_loss_fpm := pyRound (sroc - roc) 1 } := by
  simp only [get_performance_with_temperature, listMin_ALTITUDES, listMax_ALTITUDES,
    listMin_WEIGHTS, listMax_WEIGHTS]
  rw [if_neg (not_not_intro hd), if_neg (not_not_intro hw), h1, h2]

lemma gcsp_inv {s e w t : ℚ} {seg : ClimbSegment}
    (h : get_climb_segment_performance s e w t = some seg) :
    ∃ sp ep, s < e ∧
      get_performance_with_temperature s w t = some sp ∧
      get_performance_with_temperature e w (t - 2 * ((e - s) / 1000)) = some ep ∧
      seg = { start_altitude_ft := s
              end_altitude_ft := e
              altitude_gain_ft := e - s
              avg_roc_fpm := pyRound ((sp.roc_fpm + ep.roc_fpm) / 2) 1
              segment_fuel_gal := pyRound (ep.fuel_gal - sp.fuel_gal) 2
              climb_time_min :=
                if 0 < (sp.roc_fpm + ep.roc_fpm) / 2 then
                  ((pyRound ((e - s) / ((sp.roc_fpm + ep.roc_fpm) / 2)) 1 : ℚ) : WithTop ℚ)
                else ⊤
              start_ias_mph := sp.ias_mph
              end_ias_mph := ep.ias_mph
              start_density_alt_ft := sp.density_altitude_ft
              end_density_alt_ft := ep.density_altitude_ft
              temperature_c := t } := by
  simp only [get_climb_segment_performance] at h
  split_ifs at h with h1
  push_neg at h1
  rcases hg1 : get_performance_with_temperature s w t with _ | sp <;>
    rcases hg2 : get_performance_with_temperature e w (t - 2 * ((e - s) / 1000)) with _ | ep <;>
    rw [hg1, hg2] at h
  · cases h
  · cases h
  · cases h
  exact ⟨sp, ep, h1, rfl, rfl, (Option.some.inj h).symm⟩

/-! ### Small rounding facts at concrete values -/

lemma pyRound_22_1 : pyRound 22 1 = 22 := by norm_num [pyRound, rhe]

lemma pyRound_1_3 : pyRound 1 3 = 1 := by norm_num [pyRound, rhe]

lemma pyRound_0_1 : pyRound 0 1 = 0 := by norm_num [pyRound, rhe]

lemma le_pyRound_of_le {q : ℚ} (h : 22 ≤ q) : 22 ≤ pyRound q 1 := by
  calc (22:ℚ) = pyRound 22 1 := pyRound_22_1.symm
  _ ≤ pyRound q 1 := pyRound_mono 1 h

/-! ### Claim theorems -/

/-- C1: for every query `(x, y)` inside the inclusive grid bounds that is not
exactly on a grid point in both axes, `_bilinear_interpolation` returns
`(1-tx)(1-ty)·v00 + tx(1-ty)·v10 + (1-tx)·ty·v01 + tx·ty·v11`, where `x0` is the
largest axis value `≤ x` and `x1` the smallest axis value `≥ x` (symmetrically
for `y`), `tx = (x-x0)/(x1-x0)` with `tx = 0` when `x1 = x0` (`ty` analogously),
and the `vij` are the table entries at the four bracketing corners.  The result
is returned unrounded. -/
theorem C1_bilinear_blend (x y : ℚ) (gX gY : List ℚ) (v : ℚ → ℚ → ℚ)
    (x0 x1 y0 y1 : ℚ)
    (hb : gX.headI ≤ x ∧ x ≤ gX.getLastD 0 ∧ gY.headI ≤ y ∧ y ≤ gY.getLastD 0)
    (hx0 : x0 ∈ gX ∧ x0 ≤ x ∧ ∀ g ∈ gX, g ≤ x → g ≤ x0)
    (hx1 : x1 ∈ gX ∧ x ≤ x1 ∧ ∀ g ∈ gX, x ≤ g → x1 ≤ g)
    (hy0 : y0 ∈ gY ∧ y0 ≤ y ∧ ∀ g ∈ gY, g ≤ y → g ≤ y0)
    (hy1 : y1 ∈ gY ∧ y ≤ y1 ∧ ∀ g ∈ gY, y ≤ g → y1 ≤ g)
    (hne : ¬(x0 = x1 ∧ y0 = y1)) :
    bilinearInterpolation x y gX gY v =
      some ((1 - (if x1 = x0 then 0 else (x - x0) / (x1 - x0)))
              * (1 - (if y1 = y0 then 0 else (y - y0) / (y1 - y0))) * v x0 y0
          + (if x1 = x0 then 0 else (x - x0) / (x1 - x0))
              * (1 - (if y1 = y0 then 0 else (y - y0) / (y1 - y0))) * v x1 y0
          + (1 - (if x1 = x0 then 0 else (x - x0) / (x1 - x0)))
              * (if y1 = y0 then 0 else (y - y0) / (y1 - y0)) * v x0 y1
          + (if x1 = x0 then 0 else (x - x0) / (x1 - x0))
              * (if y1 = y0 then 0 else (y - y0) / (y1 - y0)) * v x1 y1) := by
  have e0 : x0sel gX x = x0 := x0sel_eq hx0.1 hx0.2.1 hx0.2.2
  have e1 : x1sel gX x = x1 := x1sel_eq hx1.1 hx1.2.1 hx1.2.2
  have f0 : x0sel gY y = y0 := x0sel_eq hy0.1 hy0.2.1 hy0.2.2
  have f1 : x1sel gY y = y1 := x1sel_eq hy1.1 hy1.2.1 hy1.2.2
  unfold bilinearInterpolation txOf
  rw [if_pos hb, e0, e1, f0, f1, if_neg hne]

/-- Witness for C1 at the concrete query `(2500, 1850)` of the IAS table:
the four bracketing corners are `(0, 5000) × (1700, 2000)` and the blend
evaluates to `75.25`. -/
theorem C1_witness :
    bilinearInterpolation 2500 1850 ALTITUDES WEIGHTS IAS_DATA = some (301/4) := by
  have h := C1_bilinear_blend 2500 1850 ALTITUDES WEIGHTS IAS_DATA 0 5000 1700 2000
    (by norm_num [ALTITUDES, WEIGHTS])
    (by refine ⟨by norm_num [ALTITUDES], by norm_num, ?_⟩
        intro g hg
        fin_cases hg <;> norm_num)
    (by refine ⟨by norm_num [ALTITUDES], by norm_num, ?_⟩
        intro g hg
        fin_cases hg <;> norm_num)
    (by refine ⟨by norm_num [WEIGHTS], by norm_num, ?_⟩
        intro g hg
        fin_cases hg <;> norm_num)
    (by refine ⟨by norm_num [WEIGHTS], by norm_num, ?_⟩
        intro g hg
        fin_cases hg <;> norm_num)
    (by norm_num)
  rw [h]
  norm_num [IAS_DATA]

/-- C2: for every `(altitude, weight)` pair in `ALTITUDES × WEIGHTS`,
`get_performance_standard` returns exactly the tabulated IAS, ROC and fuel
values (rounding to 1, 1 and 2 decimals leaves them unchanged): the
interpolator takes the exact-grid-point branch and returns the table entry
with no interpolation error. -/
theorem C2_exact_grid_reproduction :
    ∀ a ∈ ALTITUDES, ∀ w ∈ WEIGHTS,
      get_performance_standard a w = some (IAS_DATA a w, ROC_DATA a w, FUEL_DATA a w) := by
  intro a ha w hw
  fin_cases ha <;> fin_cases hw <;>
    norm_num [get_performance_standard, bilinearInterpolation, x0sel, x1sel, txOf,
      listMax, listMin, ALTITUDES, WEIGHTS, IAS_DATA, ROC_DATA, FUEL_DATA,
      List.filter, List.foldl, List.headI, pyRound, rhe]

/-- Witness for C2 at the grid point `(0, 1700)`:
`get_performance_standard 0 1700 = (75.0, 1085.0, 1.0)`. -/
theorem C2_witness : get_performance_standard 0 1700 = some (75, 1085, 1) := by
  have h := C2_exact_grid_reproduction 0 (by norm_num [ALTITUDES]) 1700 (by norm_num [WEIGHTS])
  rw [h]
  norm_num [IAS_DATA, ROC_DATA, FUEL_DATA]

/-- C3: `get_performance_with_temperature` returns absent (not an exception)
whenever the computed density altitude lies outside `[0, 15000]` or the weight
lies outside `[1700, 2300]`; and for altitude `-1000` or `20000`, or weight
`1500` or `2500`, it returns absent at every temperature (including
temperatures for which the density altitude falls back inside the grid while
the raw pressure altitude is outside it). -/
theorem C3_absent_out_of_bounds :
    (∀ p w t : ℚ,
      (¬(0 ≤ calculate_density_altitude p t ∧ calculate_density_altitude p t ≤ 15000)
        ∨ ¬(1700 ≤ w ∧ w ≤ 2300)) →
      get_performance_with_temperature p w t = none) ∧
    (∀ w t : ℚ, get_performance_with_temperature (-1000) w t = none ∧
                get_performance_with_temperature 20000 w t = none) ∧
    (∀ p t : ℚ, get_performance_with_temperature p 1500 t = none ∧
                get_performance_with_temperature p 2500 t = none) := by
  have key : ∀ p w t : ℚ, ¬(0 ≤ p ∧ p ≤ 15000 ∧ 1700 ≤ w ∧ w ≤ 2300) →
      get_performance_with_temperature p w t = none := by
    intro p w t hp
    simp only [get_performance_with_temperature, listMin_ALTITUDES, listMax_ALTITUDES,
      listMin_WEIGHTS, listMax_WEIGHTS]
    split_ifs with h1 h2
    · -- both guards pass: the lookup at the raw pressure altitude raises
      have hnone : get_performance_standard p w = none := gps_none_iff.mpr hp
      rcases hg : get_performance_standard (calculate_density_altitude p t) w
        with _ | ⟨i, r, f⟩
      · rfl
      · rw [hnone]
    · rfl
    · rfl
  refine ⟨?_, ?_, ?_⟩
  · intro p w t h
    simp only [get_performance_with_temperature, listMin_ALTITUDES, listMax_ALTITUDES,
      listMin_WEIGHTS, listMax_WEIGHTS]
    rcases h with h | h
    · rw [if_pos h]
    · by_cases h1 : (0 ≤ calculate_density_altitude p t ∧ calculate_density_altitude p t ≤ 15000)
      · rw [if_neg (not_not_intro h1), if_pos h]
      · rw [if_pos h1]
  · intro w t
    constructor
    · exact key (-1000) w t (by intro hc; norm_num at hc)
    · exact key 20000 w t (by intro hc; norm_num at hc)
  · intro p t
    constructor
    · exact key p 1500 t (by intro hc; norm_num at hc)
    · exact key p 2500 t (by intro hc; norm_num at hc)

/-- Witness for C3: weight 2500 is rejected at an in-grid altitude, and the
raw altitude `-1000` is rejected even at a hot temperature (`t = 30`) whose
density altitude `560` is back inside the grid. -/
theorem C3_witness :
    get_performance_with_temperature 5000 2500 10 = none ∧
    calculate_density_altitude (-1000) 30 = 560 ∧
    get_performance_with_temperature (-1000) 2000 30 = none := by
  refine ⟨C3_absent_out_of_bounds.1 5000 2500 10 (Or.inr (by norm_num)), by
    norm_num [calculate_density_altitude], (C3_absent_out_of_bounds.2.1 2000 30).1⟩

/-- C4: `get_performance_standard` raises the OutOfBounds fault (modelled
as `none`) if and only if the altitude is outside the inclusive range
`[0, 15000]` or the weight is outside the inclusive range `[1700, 2300]`;
for every in-bounds pair it returns a value without raising. -/
theorem C4_out_of_bounds_iff (a w : ℚ) :
    (get_performance_standard a w = none ↔
      ¬(0 ≤ a ∧ a ≤ 15000 ∧ 1700 ≤ w ∧ w ≤ 2300)) ∧
    ((0 ≤ a ∧ a ≤ 15000 ∧ 1700 ≤ w ∧ w ≤ 2300) →
      ∃ v, get_performance_standard a w = some v) := by
  refine ⟨gps_none_iff, ?_⟩
  intro hb
  obtain ⟨i, r, f, h⟩ := gps_some hb
  exact ⟨(i, r, f), h⟩

/-- Witness for C4 at the in-bounds pair `(0, 1700)`. -/
theorem C4_witness : ∃ v, get_performance_standard 0 1700 = some v :=
  (C4_out_of_bounds_iff 0 1700).2 (by norm_num)

/-- C5: for every pressure altitude `p` and temperature `t`, without any
precondition, `calculate_density_altitude p t` succeeds (it is a total
function, with no bounds check) and returns exactly
`p + 120·(t - (15 - 2·p/1000))`. -/
theorem C5_density_altitude_formula (p t : ℚ) :
    calculate_density_altitude p t = p + 120 * (t - (15 - 2 * p / 1000)) := rfl

/-- C9: for every query point strictly inside the convex hull of the grid
(in bounds and not coinciding with a grid point), the value returned by
`_bilinear_interpolation` lies between the minimum and the maximum of the four
surrounding corner table values. -/
theorem C9_bounding (x y : ℚ) (gX gY : List ℚ) (v : ℚ → ℚ → ℚ)
    (hgx : gX ≠ []) (hgy : gY ≠ [])
    (hb : gX.headI ≤ x ∧ x ≤ gX.getLastD 0 ∧ gY.headI ≤ y ∧ y ≤ gY.getLastD 0)
    (hne : ¬(x0sel gX x = x1sel gX x ∧ x0sel gY y = x1sel gY y)) :
    ∃ r, bilinearInterpolation x y gX gY v = some r ∧
      min (min (v (x0sel gX x) (x0sel gY y)) (v (x1sel gX x) (x0sel gY y)))
          (min (v (x0sel gX x) (x1sel gY y)) (v (x1sel gX x) (x1sel gY y))) ≤ r ∧
      r ≤ max (max (v (x0sel gX x) (x0sel gY y)) (v (x1sel gX x) (x0sel gY y)))
              (max (v (x0sel gX x) (x1sel gY y)) (v (x1sel gX x) (x1sel gY y))) := by
  obtain ⟨r, hr⟩ : ∃ r, bilinearInterpolation x y gX gY v = some r :=
    ⟨_, bilin_formula hb⟩
  exact ⟨r, hr, bilin_bounds hgx hgy hb hr⟩

/-- Witness for C9 at the interior query `(2500, 1850)` of the ROC table:
its corner values are 1085, 825, 840, 610, and the interpolated value lies
between 610 and 1085. -/
theorem C9_witness :
    ∃ r, bilinearInterpolation 2500 1850 ALTITUDES WEIGHTS ROC_DATA = some r ∧
      (610:ℚ) ≤ r ∧ r ≤ 1085 := by
  obtain ⟨r, hr, hlo, hhi⟩ := C9_bounding 2500 1850 ALTITUDES WEIGHTS ROC_DATA
    ALTITUDES_ne WEIGHTS_ne (by norm_num [ALTITUDES, WEIGHTS])
    (by norm_num [x0sel, x1sel, listMax, listMin, ALTITUDES, WEIGHTS,
      List.filter, List.foldl, List.headI])
  refine ⟨r, hr, ?_, ?_⟩
  · have : min (min (ROC_DATA (x0sel ALTITUDES 2500) (x0sel WEIGHTS 1850))
        (ROC_DATA (x1sel ALTITUDES 2500) (x0sel WEIGHTS 1850)))
        (min (ROC_DATA (x0sel ALTITUDES 2500) (x1sel WEIGHTS 1850))
        (ROC_DATA (x1sel ALTITUDES 2500) (x1sel WEIGHTS 1850))) = 610 := by
      norm_num [x0sel, x1sel, listMax, listMin, ALTITUDES, WEIGHTS, ROC_DATA,
        List.filter, List.foldl, List.headI]
    linarith [this ▸ hlo]
  · have : max (max (ROC_DATA (x0sel ALTITUDES 2500) (x0sel WEIGHTS 1850))
        (ROC_DATA (x1sel ALTITUDES 2500) (x0sel WEIGHTS 1850)))
        (max (ROC_DATA (x0sel ALTITUDES 2500) (x1sel WEIGHTS 1850))
        (ROC_DATA (x1sel ALTITUDES 2500) (x1sel WEIGHTS 1850))) = 1085 := by
      norm_num [x0sel, x1sel, listMax, listMin, ALTITUDES, WEIGHTS, ROC_DATA,
        List.filter, List.foldl, List.headI]
    linarith [this ▸ hhi]

/-- C6: for every pressure altitude `p ∈ [0, 15000]` and weight
`w ∈ [1700, 2300]`, calling `get_performance_with_temperature` with the ISA
temperature `15 - 2·p/1000` returns a sample (not absent) whose
`density_altitude_ft` equals `p` (within ±1 ft of rounding), whose
`isa_deviation_c` is 0, and whose `performance_factor` is exactly `1.000`. -/
theorem C6_isa_invariance :
    ∀ p w : ℚ, 0 ≤ p → p ≤ 15000 → 1700 ≤ w → w ≤ 2300 →
      ∃ s, get_performance_with_temperature p w (15 - 2 * p / 1000) = some s ∧
        |s.density_altitude_ft - p| ≤ 1 ∧ s.isa_deviation_c = 0 ∧
        s.performance_factor = 1 := by
  intro p w hp0 hp1 hw0 hw1
  have hd : calculate_density_altitude p (15 - 2 * p / 1000) = p := by
    simp only [calculate_density_altitude]
    ring
  obtain ⟨i, r, f, hg⟩ := gps_some ⟨hp0, hp1, hw0, hw1⟩
  have h1 : get_performance_standard (calculate_density_altitude p (15 - 2 * p / 1000)) w
      = some (i, r, f) := by rw [hd]; exact hg
  have heq := gpwt_eq ⟨by rw [hd]; exact hp0, by rw [hd]; exact hp1⟩ ⟨hw0, hw1⟩ h1 hg
  obtain ⟨ri, rr, rf, hI, hR, hF, hie, hre, hfe⟩ := gps_inv hg
  have hrge : 22 ≤ r := by
    rw [hre]
    exact le_pyRound_of_le (roc_raw_ge ⟨hp0, hp1, hw0, hw1⟩ hR)
  refine ⟨_, heq, ?_, ?_, ?_⟩
  · dsimp only
    rw [hd]
    have h := abs_pyRound_sub p 0
    have he : (1:ℚ) / (2 * 10 ^ (0:ℕ)) = 1/2 := by norm_num
    rw [he] at h
    linarith [abs_nonneg (pyRound p 0 - p), h]
  · dsimp only
    have he : (15 - 2 * p / 1000) - (15 - 2 * p / 1000) = (0:ℚ) := by ring
    rw [he, pyRound_0_1]
  · dsimp only
    rw [if_pos (by linarith : (0:ℚ) < r), div_self (by linarith : r ≠ 0), pyRound_1_3]

/-- Witness for C6 at `p = 5000`, `w = 2000` (ISA temperature 5 °C), the
spec's concrete scenario 3. -/
theorem C6_witness :
    ∃ s, get_performance_with_temperature 5000 2000 (15 - 2 * 5000 / 1000) = some s ∧
      |s.density_altitude_ft - 5000| ≤ 1 ∧ s.isa_deviation_c = 0 ∧
      s.performance_factor = 1 :=
  C6_isa_invariance 5000 2000 (by norm_num) (by norm_num) (by norm_num) (by norm_num)

/-- Helper: the ROC field of any sample produced by the temperature-corrected
lookup is at least 22 fpm (the smallest table entry). -/
lemma gpwt_roc_ge {p w t : ℚ} {s : PerformanceData}
    (h : get_performance_with_temperature p w t = some s) : 22 ≤ s.roc_fpm := by
  obtain ⟨i, r, f, si, sr, sf, hg1, hg2, hdb, hwb, hseq⟩ := gpwt_inv h
  obtain ⟨ri, rr, rf, hI, hR, hF, hie, hre, hfe⟩ := gps_inv hg1
  rw [hseq]
  dsimp only
  rw [hre]
  exact le_pyRound_of_le (roc_raw_ge ⟨hdb.1, hdb.2, hwb.1, hwb.2⟩ hR)

/-- C7 (counterexample): the claim "the returned performance_factor is < 1
for every temperature above ISA" fails: at pressure altitude 5000, weight
2000, temperature 5.001 °C (above the ISA temperature 5 °C), the two rounded
ROC values coincide and the performance factor is exactly 1, not < 1. -/
theorem C7_counterexample :
    (15 - 2 * 5000 / 1000 : ℚ) < 5001/1000 ∧
    (get_performance_with_temperature 5000 2000 (5001/1000)).map
      PerformanceData.performance_factor = some 1 ∧
    ¬((1:ℚ) < 1) := by
  refine ⟨by norm_num, ?_, by norm_num⟩
  norm_num [get_performance_with_temperature, calculate_density_altitude,
    get_performance_standard, bilinearInterpolation, x0sel, x1sel, txOf,
    listMax, listMin, ALTITUDES, WEIGHTS, IAS_DATA, ROC_DATA, FUEL_DATA,
    List.filter, List.foldl, List.headI, pyRound, rhe]

/-- C7 (amended): for fixed pressure altitude and weight, increasing the
outside temperature strictly increases the computed density altitude; whenever
both lookups return a sample the hotter one's ROC is not larger; and the
returned performance_factor is ≤ 1 for every temperature above ISA and ≥ 1
for every temperature below ISA (equality can occur arbitrarily close to ISA,
because the factor is a ratio of ROC values that are first rounded to one
decimal place, so it rounds to exactly 1.000 for small deviations). -/
theorem C7_amended_monotone_temperature :
    (∀ p t t' : ℚ, t < t' →
      calculate_density_altitude p t < calculate_density_altitude p t') ∧
    (∀ p w t t' : ℚ, ∀ s s' : PerformanceData, t < t' →
      get_performance_with_temperature p w t = some s →
      get_performance_with_temperature p w t' = some s' →
      s'.roc_fpm ≤ s.roc_fpm) ∧
    (∀ p w t : ℚ, ∀ s : PerformanceData,
      get_performance_with_temperature p w t = some s →
      (15 - 2 * p / 1000 < t → s.performance_factor ≤ 1) ∧
      (t < 15 - 2 * p / 1000 → 1 ≤ s.performance_factor)) := by
  refine ⟨?_, ?_, ?_⟩
  · intro p t t' h
    simp only [calculate_density_altitude]
    linarith
  · intro p w t t' s s' htt hs hs'
    obtain ⟨i, r, f, si, sr, sf, hg1, hg2, hdb, hwb, hseq⟩ := gpwt_inv hs
    obtain ⟨i', r', f', si', sr', sf', hg1', hg2', hdb', hwb', hseq'⟩ := gpwt_inv hs'
    obtain ⟨ri, rr, rf, hI, hR, hF, hie, hre, hfe⟩ := gps_inv hg1
    obtain ⟨ri', rr', rf', hI', hR', hF', hie', hre', hfe'⟩ := gps_inv hg1'
    have hdle : calculate_density_altitude p t ≤ calculate_density_altitude p t' := by
      simp only [calculate_density_altitude]
      linarith
    have hraw : rr' ≤ rr :=
      roc_raw_antitone hdb.1 hdle hdb'.2 hwb.1 hwb.2 hR hR'
    rw [hseq, hseq']
    dsimp only
    rw [hre, hre']
    exact pyRound_mono 1 hraw
  · intro p w t s hs
    obtain ⟨i, r, f, si, sr, sf, hg1, hg2, hdb, hwb, hseq⟩ := gpwt_inv hs
    obtain ⟨ri, rr, rf, hI, hR, hF, hie, hre, hfe⟩ := gps_inv hg1
    obtain ⟨sri, srr, srf, hsI, hsR, hsF, hsie, hsre, hsfe⟩ := gps_inv hg2
    have hpb : 0 ≤ p ∧ p ≤ 15000 ∧ 1700 ≤ w ∧ w ≤ 2300 := by
      by_contra hc
      rw [gps_none_iff.mpr hc] at hg2
      cases hg2
    have hsrge : 22 ≤ sr := by
      rw [hsre]
      exact le_pyRound_of_le (roc_raw_ge hpb hsR)
    constructor
    · intro habove
      have hdgt : p ≤ calculate_density_altitude p t := by
        simp only [calculate_density_altitude]
        linarith
      have hraw : rr ≤ srr :=
        roc_raw_antitone hpb.1 hdgt hdb.2 hwb.1 hwb.2 hsR hR
      have hrle : r ≤ sr := by
        rw [hre, hsre]
        exact pyRound_mono 1 hraw
      rw [hseq]
      dsimp only
      rw [if_pos (by linarith : (0:ℚ) < sr)]
      calc pyRound (r / sr) 3 ≤ pyRound 1 3 :=
            pyRound_mono 3 ((div_le_one (by linarith)).mpr hrle)
        _ = 1 := pyRound_1_3
    · intro hbelow
      have hdlt : calculate_density_altitude p t ≤ p := by
        simp only [calculate_density_altitude]
        linarith
      have hraw : srr ≤ rr :=
        roc_raw_antitone hdb.1 hdlt hpb.2.1 hwb.1 hwb.2 hR hsR
      have hrge : sr ≤ r := by
        rw [hre, hsre]
        exact pyRound_mono 1 hraw
      rw [hseq]
      dsimp only
      rw [if_pos (by linarith : (0:ℚ) < sr)]
      calc (1:ℚ) = pyRound 1 3 := pyRound_1_3.symm
        _ ≤ pyRound (r / sr) 3 :=
            pyRound_mono 3 ((one_le_div (by linarith)).mpr hrge)

/-- Witness for C7 (amended) at the spec's hot-day/standard-day scenario:
density altitude is strictly monotone in temperature; at 5000 ft / 2000 lbs
the 25 °C sample's ROC (499.6) does not exceed the 5 °C sample's ROC (610);
and the 25 °C (above-ISA) sample's performance factor 0.819 is ≤ 1. -/
theorem C7_amended_witness :
    calculate_density_altitude 0 0 < calculate_density_altitude 0 1 ∧
    (PerformanceData.mk 75 (2498/5) (287/100) 5000 7400 25 5 20 (819/1000)
        (552/5)).roc_fpm ≤
      (PerformanceData.mk 76 610 (11/5) 5000 5000 5 5 0 1 0).roc_fpm ∧
    (PerformanceData.mk 75 (2498/5) (287/100) 5000 7400 25 5 20 (819/1000)
        (552/5)).performance_factor ≤ 1 := by
  have h5 : get_performance_with_temperature 5000 2000 5 =
      some (PerformanceData.mk 76 610 (11/5) 5000 5000 5 5 0 1 0) := by
    norm_num [get_performance_with_temperature, calculate_density_altitude,
      get_performance_standard, bilinearInterpolation, x0sel, x1sel, txOf,
      listMax, listMin, ALTITUDES, WEIGHTS, IAS_DATA, ROC_DATA, FUEL_DATA,
      List.filter, List.foldl, List.headI, pyRound, rhe]
  have h25 : get_performance_with_temperature 5000 2000 25 =
      some (PerformanceData.mk 75 (2498/5) (287/100) 5000 7400 25 5 20 (819/1000)
        (552/5)) := by
    norm_num [get_performance_with_temperature, calculate_density_altitude,
      get_performance_standard, bilinearInterpolation, x0sel, x1sel, txOf,
      listMax, listMin, ALTITUDES, WEIGHTS, IAS_DATA, ROC_DATA, FUEL_DATA,
      List.filter, List.foldl, List.headI, pyRound, rhe]
  refine ⟨C7_amended_monotone_temperature.1 0 0 1 (by norm_num), ?_, ?_⟩
  · exact C7_amended_monotone_temperature.2.1 5000 2000 5 25 _ _ (by norm_num) h5 h25
  · exact (C7_amended_monotone_temperature.2.2 5000 2000 25 _ h25).1 (by norm_num)

/-- C8 (counterexample): the claim computes the two fuel terms at the
segment's *recorded* (whole-foot-rounded) density altitudes, but the code uses
the unrounded density altitudes.  For `climb_segment(5000, 10000, 2300, 5.03)`
the recorded density altitudes are 5004 and 10004 ft, the code's segment fuel
is 2.2 gal, while the claim's formula gives
`round(fuel(10004) - fuel(5004), 2) = round(4.81 - 2.6, 2) = 2.21 ≠ 2.2`. -/
theorem C8_counterexample :
    (get_climb_segment_performance 5000 10000 2300 (503/100)).map
      (fun seg => (seg.start_density_alt_ft, seg.end_density_alt_ft,
        seg.segment_fuel_gal)) = some (5004, 10004, 11/5) ∧
    (get_performance_standard 5004 2300).map (fun v => v.2.2) = some (13/5) ∧
    (get_performance_standard 10004 2300).map (fun v => v.2.2) = some (481/100) ∧
    pyRound ((481:ℚ)/100 - 13/5) 2 = 221/100 ∧
    (11:ℚ)/5 ≠ 221/100 := by
  refine ⟨?_, ?_, ?_, by norm_num [pyRound, rhe], by norm_num⟩ <;>
    norm_num [get_climb_segment_performance, get_performance_with_temperature,
      calculate_density_altitude, get_performance_standard, bilinearInterpolation,
      x0sel, x1sel, txOf, listMax, listMin, ALTITUDES, WEIGHTS, IAS_DATA, ROC_DATA,
      FUEL_DATA, List.filter, List.foldl, List.headI, pyRound, rhe]

/-- C8 (amended): for every ClimbSegment returned by
`get_climb_segment_performance`, `segment_fuel_gal` equals
`round(fuel(end) - fuel(start), 2)`, where each term is the fuel component of
`get_performance_standard` evaluated independently at that endpoint's
*unrounded* density altitude (the value the recorded whole-foot field is
rounded from), the end-point temperature being derived by the standard lapse. -/
theorem C8_amended_fuel_additivity :
    ∀ s e w t : ℚ, ∀ seg : ClimbSegment,
      get_climb_segment_performance s e w t = some seg →
      ∃ fs fe,
        (get_performance_standard (calculate_density_altitude s t) w).map
          (fun v => v.2.2) = some fs ∧
        (get_performance_standard
            (calculate_density_altitude e (t - 2 * ((e - s) / 1000))) w).map
          (fun v => v.2.2) = some fe ∧
        seg.segment_fuel_gal = pyRound (fe - fs) 2 := by
  intro s e w t seg h
  obtain ⟨sp, ep, hlt, hsp, hep, hseq⟩ := gcsp_inv h
  obtain ⟨i1, r1, f1, si1, sr1, sf1, hg1, hg2, hb1, hw1, hspe⟩ := gpwt_inv hsp
  obtain ⟨i2, r2, f2, si2, sr2, sf2, hg1', hg2', hb2, hw2, hepe⟩ := gpwt_inv hep
  refine ⟨f1, f2, by rw [hg1]; rfl, by rw [hg1']; rfl, ?_⟩
  rw [hseq]
  dsimp only
  rw [hspe, hepe]

/-- Witness for C8 (amended) at the spec's scenario 5 segment
`climb_segment(0, 5000, 2000, 15)`: segment fuel 1.2 gal equals
`round(fuel(5000 ft density) - fuel(0 ft density), 2) = 2.2 - 1.0`. -/
theorem C8_amended_witness :
    ∃ fs fe,
      (get_performance_standard (calculate_density_altitude 0 15) 2000).map
        (fun v => v.2.2) = some fs ∧
      (get_performance_standard
          (calculate_density_altitude 5000 (15 - 2 * ((5000 - 0) / 1000))) 2000).map
        (fun v => v.2.2) = some fe ∧
      (ClimbSegment.mk 0 5000 5000 725 (6/5) (((69:ℚ)/10 : ℚ) : WithTop ℚ) 77 76 0
        5000 15).segment_fuel_gal = pyRound (fe - fs) 2 := by
  apply C8_amended_fuel_additivity 0 5000 2000 15
  norm_num [get_climb_segment_performance, get_performance_with_temperature,
    calculate_density_altitude, get_performance_standard, bilinearInterpolation,
    x0sel, x1sel, txOf, listMax, listMin, ALTITUDES, WEIGHTS, IAS_DATA, ROC_DATA,
    FUEL_DATA, List.filter, List.foldl, List.headI, pyRound, rhe]

/-- C10 (counterexample): the claim says every returned ClimbSegment has a
*positive* `climb_time_min`, но the stored field is rounded to one decimal:
for the 1-ft segment `climb_segment(0, 1, 1700, 15)` the raw climb time
`1/1084.95 ≈ 0.0009 min` rounds to `0.0`, which is not positive. -/
theorem C10_counterexample :
    (get_climb_segment_performance 0 1 1700 15).map ClimbSegment.climb_time_min
      = some ((0:ℚ) : WithTop ℚ) ∧
    ¬((0 : WithTop ℚ) < ((0:ℚ) : WithTop ℚ)) := by
  constructor
  · norm_num [get_climb_segment_performance, get_performance_with_temperature,
      calculate_density_altitude, get_performance_standard, bilinearInterpolation,
      x0sel, x1sel, txOf, listMax, listMin, ALTITUDES, WEIGHTS, IAS_DATA, ROC_DATA,
      FUEL_DATA, List.filter, List.foldl, List.headI, pyRound, rhe]
  · simp

/-- C10 (amended): with the built-in tables (every ROC entry ≥ 22 fpm),
every ClimbSegment returned by `get_climb_segment_performance` has
`avg_roc_fpm > 0` and a finite, nonnegative `climb_time_min`: the
positive-infinity "cannot climb" sentinel branch is unreachable, because each
endpoint ROC is an interpolated value bounded below by the minimum of its
corner entries.  (The raw climb time is strictly positive, but the recorded
field is rounded to one decimal and can round down to 0.0 for very short
segments.) -/
theorem C10_amended_no_infinite_sentinel :
    ∀ s e w t : ℚ, ∀ seg : ClimbSegment,
      get_climb_segment_performance s e w t = some seg →
      0 < seg.avg_roc_fpm ∧ seg.climb_time_min ≠ ⊤ ∧
      ∃ q : ℚ, seg.climb_time_min = (q : WithTop ℚ) ∧ 0 ≤ q := by
  intro s e w t seg h
  obtain ⟨sp, ep, hlt, hsp, hep, hseq⟩ := gcsp_inv h
  have h1 := gpwt_roc_ge hsp
  have h2 := gpwt_roc_ge hep
  have havg' : 0 < (sp.roc_fpm + ep.roc_fpm) / 2 := by linarith
  rw [hseq]
  dsimp only
  refine ⟨?_, ?_, ?_⟩
  · have := le_pyRound_of_le (by linarith : (22:ℚ) ≤ (sp.roc_fpm + ep.roc_fpm) / 2)
    linarith
  · rw [if_pos havg']
    exact WithTop.coe_ne_top
  · rw [if_pos havg']
    refine ⟨pyRound ((e - s) / ((sp.roc_fpm + ep.roc_fpm) / 2)) 1, rfl, ?_⟩
    have hq : 0 ≤ (e - s) / ((sp.roc_fpm + ep.roc_fpm) / 2) :=
      div_nonneg (by linarith) (le_of_lt havg')
    calc (0:ℚ) = pyRound 0 1 := pyRound_0_1.symm
      _ ≤ pyRound ((e - s) / ((sp.roc_fpm + ep.roc_fpm) / 2)) 1 := pyRound_mono 1 hq

/-- Witness for C10 (amended) on the segment `climb_segment(0, 5000, 2000, 15)`:
average ROC 725 fpm is positive and the climb time 6.9 min is finite and
nonnegative. -/
theorem C10_amended_witness :
    0 < (ClimbSegment.mk 0 5000 5000 725 (6/5) (((69:ℚ)/10 : ℚ) : WithTop ℚ) 77 76 0
        5000 15).avg_roc_fpm ∧
    (ClimbSegment.mk 0 5000 5000 725 (6/5) (((69:ℚ)/10 : ℚ) : WithTop ℚ) 77 76 0
        5000 15).climb_time_min ≠ ⊤ ∧
    ∃ q : ℚ, (ClimbSegment.mk 0 5000 5000 725 (6/5) (((69:ℚ)/10 : ℚ) : WithTop ℚ) 77
        76 0 5000 15).climb_time_min = (q : WithTop ℚ) ∧ 0 ≤ q := by
  apply C10_amended_no_infinite_sentinel 0 5000 2000 15
  norm_num [get_climb_segment_performance, get_performance_with_temperature,
    calculate_density_altitude, get_performance_standard, bilinearInterpolation,
    x0sel, x1sel, txOf, listMax, listMin, ALTITUDES, WEIGHTS, IAS_DATA, ROC_DATA,
    FUEL_DATA, List.filter, List.foldl, List.headI, pyRound, rhe]
